/-
Verification of the Simplify-AI Veo front-end (src/index.tsx) in Lean 4.

The TypeScript source is a single-page browser app: global mutable state is
modelled by an explicit `AppState` record, the remote generative-AI service
by an `Env` oracle of request results, exceptions by `Except` carrying the
state at the throw site, and the sequence of requests actually issued to the
remote service by an explicit `List Request` trace.
-/
import Mathlib

namespace Veo

/-- An error payload thrown by the remote service, abstracted by the string
`JSON.stringify(error)` would produce and the optional HTTP-like code found
at `error.error.code`. -/
structure ErrorPayload where
  stringified : String
  code : Option Int
  deriving Repr, DecidableEq

/-- Models JavaScript `String.prototype.toLowerCase` character-wise, which is
adequate for the ASCII trigger phrases the classifier inspects. -/
def jsToLowerCase (s : String) : String :=
  String.mk (s.data.map Char.toLower)

/-- Occurrence of `pat` as a contiguous subsequence of `l`, mirroring
JavaScript `String.prototype.includes` on the underlying character lists. -/
def seqContains : List Char → List Char → Bool
  | [], pat => pat.isEmpty
  | c :: cs, pat => pat.isPrefixOf (c :: cs) || seqContains cs pat

/-- `s.includes(pat)` of JavaScript, on Lean strings. -/
def strContains (s pat : String) : Bool :=
  seqContains s.data pat.data

/-- Models JavaScript `String.prototype.trim`: drop whitespace from both
ends. Only emptiness of the result is ever inspected by the source. -/
def jsTrim (s : String) : String :=
  String.mk (((s.data.dropWhile Char.isWhitespace).reverse.dropWhile Char.isWhitespace).reverse)

/-- The four error categories produced by `analyzeApiError`. -/
inductive ErrorType where
  | VIDEO_DAILY_LIMIT
  | HIGH_DEMAND
  | GENERAL_QUOTA
  | OTHER
  deriving Repr, DecidableEq

/-- `analyzeApiError` from src/index.tsx: stringify the error, lowercase it,
and test the trigger phrases in order; the daily-video-limit phrase is
checked first, then quota/429, then high-demand. -/
def analyzeApiError (error : ErrorPayload) : ErrorType :=
  let errorString := jsToLowerCase error.stringified
  if strContains errorString "limited free generations per day" then
    .VIDEO_DAILY_LIMIT
  else if strContains errorString "quota" || strContains errorString "resource_exhausted"
      || error.code == some 429 then
    .GENERAL_QUOTA
  else if strContains errorString "high demand" || strContains errorString "at capacity" then
    .HIGH_DEMAND
  else
    .OTHER

/-- Media kind of a history entry. -/
inductive MediaType where
  | image
  | video
  deriving Repr, DecidableEq

/-- `HistoryItem` from src/index.tsx. -/
structure HistoryItem where
  id : String
  type : MediaType
  dataUrl : String
  prompt : String
  deriving Repr, DecidableEq

/-- The history item built by `addToHistory`; `now` models `Date.now()`. -/
def mkHistoryItem (ty : MediaType) (dataUrl prompt : String) (now : Nat) : HistoryItem :=
  { id := "history-" ++ toString now, type := ty, dataUrl := dataUrl, prompt := prompt }

/-- The pure list transformation of `addToHistory` from src/index.tsx:
`unshift` the new item, then `pop` the last entry when the length exceeds
20. -/
def addToHistory (ty : MediaType) (dataUrl prompt : String) (now : Nat)
    (history : List HistoryItem) : List HistoryItem :=
  let history := mkHistoryItem ty dataUrl prompt now :: history
  if history.length > 20 then history.dropLast else history

/-- `loadHistory` from src/index.tsx: if a saved value exists it replaces the
current list wholesale (the JSON round-trip is modelled as the identity on
the typed list); no truncation is applied. -/
def loadHistory (saved : Option (List HistoryItem)) (current : List HistoryItem) :
    List HistoryItem :=
  match saved with
  | some l => l
  | none => current

/-- One call to `addToHistory`, as data, for reasoning about sequences of
insertions. -/
structure InsertOp where
  ty : MediaType
  dataUrl : String
  prompt : String
  now : Nat

/-- A sequence of `addToHistory` calls applied in order. -/
def applyInsertions (ops : List InsertOp) (history : List HistoryItem) : List HistoryItem :=
  ops.foldl (fun h op => addToHistory op.ty op.dataUrl op.prompt op.now h) history

/-- The `uploadedImage` global: base64 payload plus declared mime type. -/
structure UploadedImage where
  data : String
  mimeType : String
  deriving Repr, DecidableEq

/-- The fixed `config` object passed to `ai.models.generateImages`. -/
structure ImageGenConfig where
  numberOfImages : Nat
  outputMimeType : String
  aspectRatio : String
  deriving Repr, DecidableEq

/-- The config literal at the `generateImages` call site in src/index.tsx. -/
def imageGenConfig : ImageGenConfig :=
  { numberOfImages := 1, outputMimeType := "image/jpeg", aspectRatio := "16:9" }

/-- A request issued to the remote generative-AI service, recorded in the
order the source awaits them. -/
inductive Request where
  | generateContent (prompt : String) (image : Option UploadedImage)
  | generateImages (prompt : String) (config : ImageGenConfig)
  | generateVideos (prompt : String) (image : Option UploadedImage)
  | getVideosOperation
  | fetchVideo (uri : String)
  deriving Repr, DecidableEq

/-- Result of awaiting one remote call: a value, or a thrown error payload. -/
inductive ApiResult (α : Type) where
  | ok (val : α)
  | err (e : ErrorPayload)

/-- A `GenerateVideosOperation` as observed by the polling loop. -/
structure VideoOp where
  done : Bool
  error : Option ErrorPayload
  videoUri : Option String
  deriving Repr, DecidableEq

/-- Oracle for the remote service: the outcome of each awaited call during
one user interaction. `now` models `Date.now()` where an identifier is
derived from it; `pollResult k` is the outcome of the k-th
`getVideosOperation` poll. -/
structure Env where
  now : Nat
  probeResult : ApiResult Unit
  describeResult : ApiResult String
  generateImagesResult : ApiResult String
  generateVideosResult : ApiResult VideoOp
  pollResult : Nat → ApiResult VideoOp
  fetchResult : ApiResult String

/-- The mutable globals of src/index.tsx together with the DOM and
localStorage facts the source reads or writes. `aiInitialized` stands for
the `ai` client being set, `storedApiKey` / `storedHistory` for the
localStorage entries, and the `...Disabled` / `...Visible` fields for the
DOM element state driven by `updateUIState` and the generation flow. -/
structure AppState where
  isGenerating : Bool
  isVideoDailyLimitReached : Bool
  isGeneratingNewPrompts : Bool
  uploadedImage : Option UploadedImage
  history : List HistoryItem
  storedHistory : List HistoryItem
  apiKey : Option String
  storedApiKey : Option String
  aiInitialized : Bool
  promptValue : String
  videoMode : Bool
  status : String
  apiKeyModalVisible : Bool
  apiKeyInputValue : String
  generateButtonDisabled : Bool
  generateButtonText : String
  imageModeDisabled : Bool
  videoModeDisabled : Bool
  uploadButtonDisabled : Bool
  promptInputDisabled : Bool
  refreshButtonDisabled : Bool
  promptPlaceholder : String
  countdownActive : Bool
  outputPlaceholderVisible : Bool
  imageOutputVisible : Bool
  videoPlayerVisible : Bool
  downloadVisible : Bool
  deriving Repr, DecidableEq

/-- `setStatus` from src/index.tsx. -/
def setStatus (text : String) (s : AppState) : AppState :=
  { s with status := text }

/-- `updateUIState` from src/index.tsx: recompute every control's
enabled/label/placeholder state from the current flags, including the
daily-video-limit blocking branch that disables the generate button and
pins the fixed status message. -/
def updateUIState (s : AppState) : AppState :=
  let promptIsEmpty := (jsTrim s.promptValue).length == 0
  let s := { s with
    generateButtonDisabled := s.isGenerating || promptIsEmpty,
    imageModeDisabled := s.isGenerating,
    videoModeDisabled := s.isGenerating,
    uploadButtonDisabled := s.isGenerating,
    promptInputDisabled := s.isGenerating,
    refreshButtonDisabled := s.isGenerating || s.isGeneratingNewPrompts }
  let s :=
    if s.isGenerating && s.aiInitialized then
      { s with generateButtonText := "Generating...", generateButtonDisabled := true }
    else if !s.aiInitialized then
      { s with generateButtonText := "Setup Required" }
    else
      let s := { s with generateButtonText := "Generate" }
      if s.videoMode && s.isVideoDailyLimitReached then
        { s with generateButtonDisabled := true,
                 status := "Daily video limit reached. Try again tomorrow." }
      else s
  { s with promptPlaceholder :=
      match s.uploadedImage with
      | some _ =>
        if s.videoMode then "Describe how you want to animate this image..."
        else "Describe how to use this image as inspiration..."
      | none => "Describe your vision in detail..." }

/-- `resetUI` from src/index.tsx: clear the busy flag, hide the queue panel,
cancel the countdown, and rederive the control state. -/
def resetUI (s : AppState) : AppState :=
  updateUIState { s with isGenerating := false, countdownActive := false }

/-- `handleModeChange` from src/index.tsx. -/
def handleModeChange (s : AppState) : AppState :=
  updateUIState s

/-- `initializeAppWithKey` from src/index.tsx: probe the candidate key with a
lightweight request; on success adopt it, persist it, enable the app and
clear the status; on failure surface the invalid-key status, drop the
candidate from memory and persistence, and re-show the key modal. -/
def initializeAppWithKey (env : Env) (key : String) (s : AppState) : AppState :=
  let s := { s with apiKey := some key }
  match env.probeResult with
  | .ok _ =>
    let s := { s with aiInitialized := true, storedApiKey := some key, isGenerating := false }
    let s := handleModeChange s
    let s := updateUIState s
    let s := { s with apiKeyModalVisible := false }
    setStatus "" s
  | .err _ =>
    let s := setStatus "API Key is invalid or has insufficient quota. Please try again." s
    let s := { s with isGenerating := true }
    let s := updateUIState s
    { s with storedApiKey := none, apiKey := none, apiKeyInputValue := "",
             apiKeyModalVisible := true }

/-- The instruction text sent by the auxiliary describe-and-enrich request in
`generateImage`, with the user's prompt interpolated at the end. -/
def analysisInstruction (originalUserPrompt : String) : String :=
  "Analyze the provided image and the user's prompt. Create a new, highly detailed and creative prompt for an AI image generator that combines the style, subjects, colors, and composition of the image with the user's instructions. The new prompt should be a standalone instruction, not a conversation. User's prompt: \"" ++ originalUserPrompt ++ "\""

/-- The tail of `generateImage` from src/index.tsx after the final prompt is
settled: issue the `generateImages` call, and on success display the result,
append to history under the original user prompt, reset the UI and report
success. -/
def generateImagesStep (env : Env) (s : AppState) (originalUserPrompt finalPrompt : String)
    (reqs : List Request) : Except (ErrorPayload × AppState) AppState × List Request :=
  let s := setStatus "Generating image..." s
  let req := Request.generateImages finalPrompt imageGenConfig
  match env.generateImagesResult with
  | .err e => (.error (e, s), reqs ++ [req])
  | .ok imageData =>
    let dataUrl := "data:image/jpeg;base64," ++ imageData
    let s := { s with imageOutputVisible := true, downloadVisible := true }
    let newHist := addToHistory .image dataUrl originalUserPrompt env.now s.history
    let s := { s with history := newHist, storedHistory := newHist }
    let s := setStatus "Image generated successfully." (resetUI s)
    (.ok s, reqs ++ [req])

/-- `generateImage` from src/index.tsx: with an attachment, first issue the
auxiliary describe-and-enrich request; a quota-classified failure of that
step is rethrown, any other failure falls back to the user's original
prompt; then run the image-generation step. -/
def generateImage (env : Env) (s : AppState) :
    Except (ErrorPayload × AppState) AppState × List Request :=
  let originalUserPrompt := s.promptValue
  match s.uploadedImage with
  | none => generateImagesStep env s originalUserPrompt originalUserPrompt []
  | some img =>
    let s := setStatus "Analyzing image for inspiration..." s
    let req := Request.generateContent (analysisInstruction originalUserPrompt) (some img)
    match env.describeResult with
    | .ok txt => generateImagesStep env s originalUserPrompt txt [req]
    | .err e =>
      if analyzeApiError e = .GENERAL_QUOTA then
        (.error (e, s), [req])
      else
        generateImagesStep env
          (setStatus "Image analysis failed. Using the original prompt instead." s)
          originalUserPrompt originalUserPrompt [req]

/-- Error payload for `throw new Error("Video URI not found in the successful
operation response.")`; `JSON.stringify` of an `Error` object yields an empty
JSON object, and the payload carries no HTTP-like code. -/
def videoUriNotFoundError : ErrorPayload :=
  { stringified := "\x7b\x7d", code := none }

/-- The timeout status reported by `generateVideo`. -/
def videoTimeoutMessage : String :=
  "Video generation timed out after 60 seconds. The model may be under high demand or the request is complex. Please try again later."

/-- The `while` loop of `generateVideo`: with `startTime` taken as 0 and each
iteration advancing the clock by the 10000 ms sleep, the k-th check sees
elapsed time `10000 * k` against the 60000 ms budget. A poll error
classified as general-quota is rethrown; any other poll error is logged and
swallowed, leaving the operation unchanged. Returns the final operation (or
the escalated error) and the trace of poll requests. -/
def pollLoop (env : Env) (op : VideoOp) (k : Nat) :
    Except ErrorPayload VideoOp × List Request :=
  if h : op.done = false ∧ 10000 * k < 60000 then
    match env.pollResult k with
    | .ok opNext =>
      let r := pollLoop env opNext (k + 1)
      (r.1, Request.getVideosOperation :: r.2)
    | .err e =>
      if analyzeApiError e = .GENERAL_QUOTA then
        (.error e, [Request.getVideosOperation])
      else
        let r := pollLoop env op (k + 1)
        (r.1, Request.getVideosOperation :: r.2)
  else
    (.ok op, [])
termination_by 6 - k
decreasing_by all_goals omega

/-- `generateVideo` from src/index.tsx: issue the video job (with the
attachment as seed image when present), start the countdown, poll until done
or the 60-second budget is exhausted; on timeout report the timeout status
and reset without touching history; on a finished operation rethrow its
error, or fetch the video, display it, append it to history under the
original prompt (the `FileReader.onloadend` callback), reset and report
success. -/
def generateVideo (env : Env) (s : AppState) :
    Except (ErrorPayload × AppState) AppState × List Request :=
  let originalUserPrompt := s.promptValue
  let req := Request.generateVideos originalUserPrompt s.uploadedImage
  let s := { s with outputPlaceholderVisible := false, countdownActive := true }
  match env.generateVideosResult with
  | .err e => (.error (e, s), [req])
  | .ok op0 =>
    match pollLoop env op0 0 with
    | (.error e, polls) => (.error (e, s), req :: polls)
    | (.ok op, polls) =>
      if op.done = false then
        let s := setStatus videoTimeoutMessage s
        let s := { s with outputPlaceholderVisible := true }
        (.ok (resetUI s), req :: polls)
      else
        match op.error with
        | some e => (.error (e, s), req :: polls)
        | none =>
          match op.videoUri with
          | none => (.error (videoUriNotFoundError, s), req :: polls)
          | some uri =>
            match env.fetchResult with
            | .err e => (.error (e, s), req :: (polls ++ [Request.fetchVideo uri]))
            | .ok videoDataUrl =>
              let s := { s with videoPlayerVisible := true, downloadVisible := true }
              let newHist := addToHistory .video videoDataUrl originalUserPrompt env.now s.history
              let s := { s with history := newHist, storedHistory := newHist }
              let s := setStatus "Video generated successfully." (resetUI s)
              (.ok s, req :: (polls ++ [Request.fetchVideo uri]))

/-- `handleGenerateClick` from src/index.tsx: the guard returns immediately
when busy, when the trimmed prompt is empty, or when no validated client
exists; otherwise set the busy flag, clear the output area, dispatch on the
mode, and on a thrown error classify it, set the matching message (setting
the sticky daily-limit flag for the daily-limit category), and reset the
UI. -/
def handleGenerateClick (env : Env) (s : AppState) : AppState × List Request :=
  if s.isGenerating || (jsTrim s.promptValue).length == 0 || !s.aiInitialized then
    (s, [])
  else
    let s := updateUIState { s with isGenerating := true }
    let s := setStatus "" s
    let s := { s with outputPlaceholderVisible := false, imageOutputVisible := false,
                      videoPlayerVisible := false, downloadVisible := false }
    match (if s.videoMode then generateVideo env s else generateImage env s) with
    | (.ok sDone, reqs) => (sDone, reqs)
    | (.error (e, sErr), reqs) =>
      let sE :=
        match analyzeApiError e with
        | .VIDEO_DAILY_LIMIT =>
          setStatus "You have reached the daily limit for free video generations. Please try again tomorrow."
            { sErr with isVideoDailyLimitReached := true }
        | .HIGH_DEMAND =>
          setStatus "The service is currently under high demand. Please try again in a few moments." sErr
        | .GENERAL_QUOTA =>
          setStatus "You've exceeded your API usage quota. Please wait and try again later, or check your Google AI Studio plan and billing details." sErr
        | .OTHER =>
          setStatus "An unexpected error occurred. Please try again." sErr
      let sE := { sE with outputPlaceholderVisible := true }
      (resetUI sE, reqs)

/-! ### Helper lemmas -/

/-- Characterization of `addToHistory`: the new item is always placed at the
front; the previous list survives unchanged below it unless it already held
20 items, in which case its last (oldest) entry is dropped. -/
theorem addToHistory_eq (ty : MediaType) (u p : String) (now : Nat) (h : List HistoryItem) :
    addToHistory ty u p now h =
      mkHistoryItem ty u p now :: (if 20 ≤ h.length then h.dropLast else h) := by
  unfold addToHistory
  by_cases hl : 20 ≤ h.length
  · have hgt : h.length + 1 > 20 := by omega
    simp only [List.length_cons, hl, if_pos, hgt, if_pos]
    cases h with
    | nil => simp at hl
    | cons a t => simp
  · have hngt : ¬ (h.length + 1 > 20) := by omega
    simp [hl, hngt]

/-- A single insertion preserves the 20-entry cap. -/
theorem addToHistory_length_le (ty : MediaType) (u p : String) (now : Nat)
    (h : List HistoryItem) (hle : h.length ≤ 20) :
    (addToHistory ty u p now h).length ≤ 20 := by
  rw [addToHistory_eq]
  by_cases hc : 20 ≤ h.length
  · simp [hc]; omega
  · simp [hc]; omega

/-! ### Claim C1 -/

/-- Claim C1: starting from a history of length at most 20, any sequence of
`addToHistory` insertions keeps the stored list's length at most 20; and
every single insertion keeps the list most-recent-first: the new item lands
at the front, and the rest is the previous list, with its oldest (last)
entry evicted when the cap was already reached and unchanged otherwise. -/
theorem history_cap_and_most_recent_first (ops : List InsertOp) (h0 : List HistoryItem)
    (hlen : h0.length ≤ 20)
    (ty : MediaType) (u p : String) (now : Nat) (h : List HistoryItem) :
    (applyInsertions ops h0).length ≤ 20 ∧
    (addToHistory ty u p now h).head? = some (mkHistoryItem ty u p now) ∧
    ((addToHistory ty u p now h).tail = h ∨ (addToHistory ty u p now h).tail = h.dropLast) := by
  refine ⟨?_, ?_, ?_⟩
  · induction ops generalizing h0 hlen with
    | nil => simpa [applyInsertions] using hlen
    | cons op ops ih =>
      have hstep := addToHistory_length_le op.ty op.dataUrl op.prompt op.now h0 hlen
      simpa [applyInsertions, List.foldl_cons] using ih _ hstep
  · rw [addToHistory_eq]; rfl
  · rw [addToHistory_eq]
    by_cases hc : 20 ≤ h.length
    · right; simp [hc]
    · left; simp [hc]

/-- Witness for C1 at a concrete input. -/
theorem history_cap_and_most_recent_first_witness :
    ([] : List HistoryItem).length ≤ 20 ∧
    ((applyInsertions [⟨MediaType.image, "u", "p", 1⟩] ([] : List HistoryItem)).length ≤ 20 ∧
      (addToHistory MediaType.image "u2" "p2" 2 [mkHistoryItem MediaType.image "u" "p" 1]).head? =
        some (mkHistoryItem MediaType.image "u2" "p2" 2) ∧
      ((addToHistory MediaType.image "u2" "p2" 2 [mkHistoryItem MediaType.image "u" "p" 1]).tail =
          [mkHistoryItem MediaType.image "u" "p" 1] ∨
        (addToHistory MediaType.image "u2" "p2" 2 [mkHistoryItem MediaType.image "u" "p" 1]).tail =
          [mkHistoryItem MediaType.image "u" "p" 1].dropLast)) :=
  ⟨by decide,
    history_cap_and_most_recent_first [⟨MediaType.image, "u", "p", 1⟩] [] (by decide)
      MediaType.image "u2" "p2" 2 [mkHistoryItem MediaType.image "u" "p" 1]⟩

/-! ### Claim C10 -/

/-- Claim C10: `loadHistory` adopts the persisted list as-is, with no
truncation to 20 entries; a single `addToHistory` never shrinks the list (it
adds one entry and evicts at most one); hence when the loaded list already
holds more than 20 entries, the list still exceeds 20 entries immediately
after the next insertion — the cap invariant needs the precondition that
the loaded list has at most 20 entries. -/
theorem loadHistory_no_truncation (saved cur : List HistoryItem)
    (ty : MediaType) (u p : String) (now : Nat) (hover : 20 < saved.length) :
    loadHistory (some saved) cur = saved ∧
    saved.length ≤ (addToHistory ty u p now saved).length ∧
    20 < (addToHistory ty u p now saved).length := by
  have h20 : 20 ≤ saved.length := by omega
  refine ⟨rfl, ?_, ?_⟩ <;> · rw [addToHistory_eq]; simp [h20]; omega

/-- Witness for C10 at a concrete input: a persisted list of 21 entries. -/
theorem loadHistory_no_truncation_witness :
    20 < (List.replicate 21 (mkHistoryItem MediaType.image "u" "p" 0)).length ∧
    (loadHistory (some (List.replicate 21 (mkHistoryItem MediaType.image "u" "p" 0))) [] =
        List.replicate 21 (mkHistoryItem MediaType.image "u" "p" 0) ∧
      (List.replicate 21 (mkHistoryItem MediaType.image "u" "p" 0)).length ≤
        (addToHistory MediaType.video "u2" "p2" 9
          (List.replicate 21 (mkHistoryItem MediaType.image "u" "p" 0))).length ∧
      20 < (addToHistory MediaType.video "u2" "p2" 9
          (List.replicate 21 (mkHistoryItem MediaType.image "u" "p" 0))).length) :=
  ⟨by decide,
    loadHistory_no_truncation (List.replicate 21 (mkHistoryItem MediaType.image "u" "p" 0)) []
      MediaType.video "u2" "p2" 9 (by decide)⟩

/-! ### Idle-control helpers for the busy-flag claims -/

/-- The controls gated purely by the busy flag are enabled, the busy flag is
down, and the countdown is cancelled. -/
def idleControls (s : AppState) : Prop :=
  s.isGenerating = false ∧ s.promptInputDisabled = false ∧ s.uploadButtonDisabled = false ∧
    s.imageModeDisabled = false ∧ s.videoModeDisabled = false ∧ s.countdownActive = false

/-- `setStatus` does not touch any control state. -/
theorem idleControls_setStatus (t : String) (s : AppState) :
    idleControls (setStatus t s) ↔ idleControls s :=
  Iff.rfl

/-- `resetUI` always leaves the app idle: busy flag down, busy-gated controls
enabled, countdown cancelled. -/
theorem resetUI_idle (s : AppState) : idleControls (resetUI s) := by
  unfold idleControls resetUI updateUIState
  simp only
  repeat' split
  all_goals simp

/-- Every `ok` outcome of the image-generation step ends in `resetUI`. -/
theorem generateImagesStep_ok_idle (env : Env) (s : AppState) (o f : String)
    (reqs rq : List Request) (sDone : AppState)
    (hok : generateImagesStep env s o f reqs = (.ok sDone, rq)) : idleControls sDone := by
  unfold generateImagesStep at hok
  simp only at hok
  repeat' split at hok
  all_goals rw [Prod.mk.injEq] at hok
  all_goals obtain ⟨h1, h2⟩ := hok
  all_goals first
    | exact Except.noConfusion h1
    | (injection h1 with h1; subst h1;
       first
         | exact resetUI_idle _
         | exact (idleControls_setStatus _ _).mpr (resetUI_idle _))

/-- Every `ok` outcome of `generateImage` ends in `resetUI`. -/
theorem generateImage_ok_idle (env : Env) (s : AppState)
    (rq : List Request) (sDone : AppState)
    (hok : generateImage env s = (.ok sDone, rq)) : idleControls sDone := by
  unfold generateImage at hok
  simp only at hok
  repeat' split at hok
  all_goals first
    | exact generateImagesStep_ok_idle _ _ _ _ _ _ _ hok
    | (rw [Prod.mk.injEq] at hok; exact Except.noConfusion hok.1)

/-- Every `ok` outcome of `generateVideo` (timeout or success) ends in
`resetUI`. -/
theorem generateVideo_ok_idle (env : Env) (s : AppState)
    (rq : List Request) (sDone : AppState)
    (hok : generateVideo env s = (.ok sDone, rq)) : idleControls sDone := by
  unfold generateVideo at hok
  simp only at hok
  repeat' split at hok
  all_goals rw [Prod.mk.injEq] at hok
  all_goals obtain ⟨h1, h2⟩ := hok
  all_goals first
    | exact Except.noConfusion h1
    | (injection h1 with h1; subst h1;
       first
         | exact resetUI_idle _
         | exact (idleControls_setStatus _ _).mpr (resetUI_idle _))

/-- A concrete idle app state for witnesses: valid key, non-empty prompt,
image mode, empty history. -/
def baseState : AppState where
  isGenerating := false
  isVideoDailyLimitReached := false
  isGeneratingNewPrompts := false
  uploadedImage := none
  history := []
  storedHistory := []
  apiKey := some "k"
  storedApiKey := some "k"
  aiInitialized := true
  promptValue := "a prompt"
  videoMode := false
  status := ""
  apiKeyModalVisible := false
  apiKeyInputValue := ""
  generateButtonDisabled := false
  generateButtonText := "Generate"
  imageModeDisabled := false
  videoModeDisabled := false
  uploadButtonDisabled := false
  promptInputDisabled := false
  refreshButtonDisabled := false
  promptPlaceholder := ""
  countdownActive := false
  outputPlaceholderVisible := true
  imageOutputVisible := false
  videoPlayerVisible := false
  downloadVisible := false

/-- A concrete environment for witnesses: every remote call succeeds and the
video job is done at once. -/
def envW : Env where
  now := 7
  probeResult := .ok ()
  describeResult := .ok "an enriched prompt"
  generateImagesResult := .ok "IMGBYTES"
  generateVideosResult := .ok { done := true, error := none, videoUri := some "uri" }
  pollResult := fun _ => .ok { done := true, error := none, videoUri := some "uri" }
  fetchResult := .ok "VIDEODATA"

/-- Claim C2: invoking `handleGenerateClick` while the busy flag is set, or
while the trimmed prompt is empty, or while no validated client exists, is a
no-op: the state is unchanged and no request is issued. -/
theorem generate_click_guard_noop (env : Env) (s : AppState)
    (hguard : s.isGenerating = true ∨ (jsTrim s.promptValue).length = 0 ∨
      s.aiInitialized = false) :
    handleGenerateClick env s = (s, []) := by
  unfold handleGenerateClick
  rcases hguard with h | h | h <;> simp [h]

/-- Witness for C2 at a concrete input: the busy flag is set. -/
theorem generate_click_guard_noop_witness :
    ({ baseState with isGenerating := true } : AppState).isGenerating = true ∧
    handleGenerateClick envW { baseState with isGenerating := true } =
      ({ baseState with isGenerating := true }, []) :=
  ⟨rfl, generate_click_guard_noop envW { baseState with isGenerating := true } (Or.inl rfl)⟩

/-- Claim C3: whenever a generation actually starts (busy flag clear, prompt
non-empty after trimming, client validated), every terminal outcome —
success, caught failure, or video timeout — leaves the busy flag false, the
busy-gated controls re-enabled and the countdown cancelled: every terminal
path runs `resetUI`. -/
theorem generation_terminal_reenables (env : Env) (s : AppState)
    (hbusy : s.isGenerating = false)
    (hprompt : ((jsTrim s.promptValue).length == 0) = false)
    (hai : s.aiInitialized = true) :
    idleControls (handleGenerateClick env s).1 := by
  unfold handleGenerateClick
  rw [hbusy, hprompt, hai]
  simp only [Bool.false_or, Bool.not_true, Bool.or_false, Bool.or_self, Bool.false_eq_true,
    if_false]
  split
  · rename_i sDone reqs heq
    split at heq
    · exact generateVideo_ok_idle _ _ _ _ heq
    · exact generateImage_ok_idle _ _ _ _ heq
  · exact resetUI_idle _

/-- Witness for C3 at a concrete input. -/
theorem generation_terminal_reenables_witness :
    (baseState.isGenerating = false ∧ ((jsTrim baseState.promptValue).length == 0) = false ∧
      baseState.aiInitialized = true) ∧
    idleControls (handleGenerateClick envW baseState).1 :=
  ⟨⟨rfl, by decide, rfl⟩,
    generation_terminal_reenables envW baseState rfl (by decide) rfl⟩

theorem seqContains_iff (l pat : List Char) : seqContains l pat = true ↔ pat <:+: l := by
  induction l with
  | nil => simp [seqContains, List.isEmpty_iff]
  | cons c cs ih => simp [seqContains, ih, List.infix_cons_iff]

theorem strContains_lower (s pat : String) (hfix : pat.data.map Char.toLower = pat.data)
    (h : strContains s pat = true) : strContains (jsToLowerCase s) pat = true := by
  unfold strContains at h ⊢
  rw [seqContains_iff] at h ⊢
  have hmap := List.IsInfix.map Char.toLower h
  rw [hfix] at hmap
  simpa [jsToLowerCase] using hmap

theorem quota_classification (e : ErrorPayload)
    (hnotdaily : strContains (jsToLowerCase e.stringified) "limited free generations per day" = false)
    (htrigger : strContains e.stringified "quota" = true ∨
      strContains e.stringified "resource_exhausted" = true ∨ e.code = some 429) :
    analyzeApiError e = .GENERAL_QUOTA := by
  unfold analyzeApiError
  simp only [hnotdaily]
  rcases htrigger with h | h | h
  · simp [strContains_lower _ _ (by decide) h]
  · simp [strContains_lower _ _ (by decide) h]
  · simp [h]

theorem quota_classification_counterexample :
    strContains (ErrorPayload.mk "quota error: limited free generations per day" none).stringified
        "quota" = true ∧
    analyzeApiError (ErrorPayload.mk "quota error: limited free generations per day" none) ≠
      ErrorType.GENERAL_QUOTA := by
  constructor
  · decide
  · decide

theorem quota_classification_witness :
    (strContains (jsToLowerCase (ErrorPayload.mk "Quota exceeded" (some 429)).stringified)
        "limited free generations per day" = false ∧
      strContains (ErrorPayload.mk "Quota exceeded" (some 429)).stringified "quota" = false ∧
      (ErrorPayload.mk "Quota exceeded" (some 429)).code = some 429) ∧
    analyzeApiError (ErrorPayload.mk "Quota exceeded" (some 429)) = ErrorType.GENERAL_QUOTA :=
  ⟨⟨by decide, by decide, rfl⟩,
    quota_classification (ErrorPayload.mk "Quota exceeded" (some 429)) (by decide)
      (Or.inr (Or.inr rfl))⟩

theorem resetUI_limit_flag (s : AppState) :
    (resetUI s).isVideoDailyLimitReached = s.isVideoDailyLimitReached := by
  unfold resetUI updateUIState
  simp only
  repeat' split
  all_goals simp

theorem daily_limit_classify_flag_block (e : ErrorPayload) (env : Env) (s t : AppState)
    (hmsg : strContains e.stringified "limited free generations per day" = true)
    (hbusy : s.isGenerating = false)
    (hprompt : ((jsTrim s.promptValue).length == 0) = false)
    (hai : s.aiInitialized = true)
    (hvideo : s.videoMode = true)
    (herr : env.generateVideosResult = ApiResult.err e)
    (ht : t.isVideoDailyLimitReached = true) (htv : t.videoMode = true)
    (hta : t.aiInitialized = true) (htb : t.isGenerating = false) :
    analyzeApiError e = ErrorType.VIDEO_DAILY_LIMIT ∧
    (handleGenerateClick env s).1.isVideoDailyLimitReached = true ∧
    (updateUIState t).generateButtonDisabled = true ∧
    (updateUIState t).status = "Daily video limit reached. Try again tomorrow." := by
  have hlow : strContains (jsToLowerCase e.stringified) "limited free generations per day" = true :=
    strContains_lower _ _ (by decide) hmsg
  have hclass : analyzeApiError e = ErrorType.VIDEO_DAILY_LIMIT := by
    unfold analyzeApiError
    simp [hlow]
  refine ⟨hclass, ?_, ?_, ?_⟩
  · unfold handleGenerateClick
    rw [hbusy, hprompt, hai]
    simp only [Bool.false_or, Bool.not_true, Bool.or_false, Bool.false_eq_true, if_false]
    simp only [setStatus, updateUIState, generateVideo, herr, hclass, hvideo, hai]
    simp [hclass, resetUI_limit_flag, setStatus]
  · unfold updateUIState
    simp [ht, htv, hta, htb]
  · unfold updateUIState
    simp [ht, htv, hta, htb]

/-- Concrete daily-limit error payload for the C4 witness. -/
def dailyLimitPayload : ErrorPayload :=
  { stringified := "error: limited free generations per day", code := none }

/-- Environment whose video job immediately fails with the daily-limit error. -/
def dailyLimitEnv : Env :=
  { envW with generateVideosResult := .err dailyLimitPayload }

/-- `baseState` switched to video mode. -/
def videoModeState : AppState :=
  { baseState with videoMode := true }

/-- `baseState` in video mode with the sticky daily-limit flag set. -/
def limitReachedState : AppState :=
  { baseState with videoMode := true, isVideoDailyLimitReached := true }

/-- Witness for C4 at concrete inputs. -/
theorem daily_limit_classify_flag_block_witness :
    (strContains dailyLimitPayload.stringified "limited free generations per day" = true ∧
      dailyLimitEnv.generateVideosResult = ApiResult.err dailyLimitPayload) ∧
    (analyzeApiError dailyLimitPayload = ErrorType.VIDEO_DAILY_LIMIT ∧
      (handleGenerateClick dailyLimitEnv videoModeState).1.isVideoDailyLimitReached = true ∧
      (updateUIState limitReachedState).generateButtonDisabled = true ∧
      (updateUIState limitReachedState).status =
        "Daily video limit reached. Try again tomorrow.") :=
  ⟨⟨by decide, rfl⟩,
    daily_limit_classify_flag_block dailyLimitPayload dailyLimitEnv videoModeState
      limitReachedState (by decide) rfl (by decide) rfl rfl rfl rfl rfl rfl rfl⟩

/-- `resetUI` does not touch the history list. -/
theorem resetUI_history (s : AppState) : (resetUI s).history = s.history := by
  unfold resetUI updateUIState
  simp only
  repeat' split
  all_goals simp

/-- Unless the sticky daily-limit block applies, `resetUI` preserves the
status message. -/
theorem resetUI_status_preserved (s : AppState) (hlim : s.isVideoDailyLimitReached = false) :
    (resetUI s).status = s.status := by
  unfold resetUI updateUIState
  simp only
  repeat' split
  all_goals simp_all

/-- If every poll either observes a not-yet-done operation or throws an
error that is not classified general-quota, the polling loop neither
escalates nor finishes: it ends with a not-done operation. -/
theorem pollLoop_stalled (env : Env)
    (hok : ∀ k op, env.pollResult k = .ok op → op.done = false)
    (herr : ∀ k e, env.pollResult k = .err e → ¬ analyzeApiError e = .GENERAL_QUOTA) :
    ∀ (n k : Nat) (op : VideoOp), 6 - k ≤ n → op.done = false →
      ∃ opf polls, pollLoop env op k = (Except.ok opf, polls) ∧ opf.done = false := by
  intro n
  induction n with
  | zero =>
    intro k op hk hdone
    rw [pollLoop]
    have hcond : ¬ (op.done = false ∧ 10000 * k < 60000) := by omega
    rw [dif_neg hcond]
    exact ⟨op, [], rfl, hdone⟩
  | succ n ih =>
    intro k op hk hdone
    rw [pollLoop]
    by_cases hc : op.done = false ∧ 10000 * k < 60000
    · rw [dif_pos hc]
      cases hp : env.pollResult k with
      | ok opn =>
        dsimp only
        obtain ⟨opf, polls, heq, hdf⟩ := ih (k + 1) opn (by omega) (hok k opn hp)
        exact ⟨opf, Request.getVideosOperation :: polls, by rw [heq], hdf⟩
      | err e =>
        dsimp only
        have hne := herr k e hp
        rw [if_neg hne]
        obtain ⟨opf, polls, heq, hdf⟩ := ih (k + 1) op (by omega) hdone
        exact ⟨opf, Request.getVideosOperation :: polls, by rw [heq], hdf⟩
    · rw [dif_neg hc]
      exact ⟨op, [], rfl, hdone⟩

/-- Claim C6: if video polling neither observes a completed operation nor
raises a general-quota (escalating) error within the six 10-second polls
that fit the 60-second budget, `generateVideo` terminates with the timeout
outcome: the timeout status is reported, the history list is untouched, and
the flow returns to idle (busy flag cleared, countdown cancelled). -/
theorem video_timeout_outcome (env : Env) (s : AppState) (op0 : VideoOp)
    (hstart : env.generateVideosResult = .ok op0) (h0 : op0.done = false)
    (hlim : s.isVideoDailyLimitReached = false)
    (hok : ∀ k op, env.pollResult k = .ok op → op.done = false)
    (herr : ∀ k e, env.pollResult k = .err e → ¬ analyzeApiError e = .GENERAL_QUOTA) :
    ∃ sT reqs, generateVideo env s = (Except.ok sT, reqs) ∧
      sT.status = videoTimeoutMessage ∧ sT.history = s.history ∧
      sT.isGenerating = false ∧ sT.countdownActive = false := by
  obtain ⟨opf, polls, heq, hdf⟩ := pollLoop_stalled env hok herr 6 0 op0 (by omega) h0
  unfold generateVideo
  rw [hstart]
  dsimp only
  rw [heq]
  dsimp only
  rw [if_pos hdf]
  refine ⟨_, _, rfl, ?_, ?_, ?_, ?_⟩
  · exact resetUI_status_preserved _ hlim
  · exact resetUI_history _
  · exact (resetUI_idle _).1
  · exact (resetUI_idle _).2.2.2.2.2

/-- A video operation that never finishes, for the C6 witness. -/
def stalledOp : VideoOp := { done := false, error := none, videoUri := none }

/-- Environment whose video job starts but never completes, for the C6
witness. -/
def stalledEnv : Env :=
  { envW with generateVideosResult := .ok stalledOp, pollResult := fun _ => .ok stalledOp }

/-- Witness for C6 at concrete inputs. -/
theorem video_timeout_outcome_witness :
    (stalledEnv.generateVideosResult = ApiResult.ok stalledOp ∧ stalledOp.done = false ∧
      videoModeState.isVideoDailyLimitReached = false) ∧
    (∃ sT reqs, generateVideo stalledEnv videoModeState = (Except.ok sT, reqs) ∧
      sT.status = videoTimeoutMessage ∧ sT.history = videoModeState.history ∧
      sT.isGenerating = false ∧ sT.countdownActive = false) :=
  ⟨⟨rfl, rfl, rfl⟩,
    video_timeout_outcome stalledEnv videoModeState stalledOp rfl rfl rfl
      (fun k op h => by cases h; rfl)
      (fun k e h => by cases h)⟩

/-- `updateUIState` only rewrites control state: the mode flag survives. -/
theorem updateUIState_videoMode (s : AppState) : (updateUIState s).videoMode = s.videoMode := by
  unfold updateUIState; simp only; repeat' split; all_goals first | rfl | simp_all

/-- `updateUIState` leaves the attachment unchanged. -/
theorem updateUIState_uploadedImage (s : AppState) :
    (updateUIState s).uploadedImage = s.uploadedImage := by
  unfold updateUIState; simp only; repeat' split; all_goals first | rfl | simp_all

/-- `updateUIState` leaves the prompt text unchanged. -/
theorem updateUIState_promptValue (s : AppState) :
    (updateUIState s).promptValue = s.promptValue := by
  unfold updateUIState; simp only; repeat' split; all_goals first | rfl | simp_all

/-- `updateUIState` leaves the history unchanged. -/
theorem updateUIState_history (s : AppState) : (updateUIState s).history = s.history := by
  unfold updateUIState; simp only; repeat' split; all_goals first | rfl | simp_all

/-- `updateUIState` leaves the busy flag unchanged. -/
theorem updateUIState_isGenerating (s : AppState) :
    (updateUIState s).isGenerating = s.isGenerating := by
  unfold updateUIState; simp only; repeat' split; all_goals first | rfl | simp_all

/-- `updateUIState` leaves the client-initialized flag unchanged. -/
theorem updateUIState_aiInitialized (s : AppState) :
    (updateUIState s).aiInitialized = s.aiInitialized := by
  unfold updateUIState; simp only; repeat' split; all_goals first | rfl | simp_all

/-- `updateUIState` leaves the in-memory key unchanged. -/
theorem updateUIState_apiKey (s : AppState) : (updateUIState s).apiKey = s.apiKey := by
  unfold updateUIState; simp only; repeat' split; all_goals first | rfl | simp_all

/-- `updateUIState` leaves the persisted key unchanged. -/
theorem updateUIState_storedApiKey (s : AppState) :
    (updateUIState s).storedApiKey = s.storedApiKey := by
  unfold updateUIState; simp only; repeat' split; all_goals first | rfl | simp_all

/-- `updateUIState` leaves the key modal visibility unchanged. -/
theorem updateUIState_apiKeyModalVisible (s : AppState) :
    (updateUIState s).apiKeyModalVisible = s.apiKeyModalVisible := by
  unfold updateUIState; simp only; repeat' split; all_goals first | rfl | simp_all

/-- `updateUIState` leaves the key input field unchanged. -/
theorem updateUIState_apiKeyInputValue (s : AppState) :
    (updateUIState s).apiKeyInputValue = s.apiKeyInputValue := by
  unfold updateUIState; simp only; repeat' split; all_goals first | rfl | simp_all

/-- While the busy flag is up, `updateUIState` never rewrites the status
(the daily-limit branch is unreachable). -/
theorem updateUIState_status_busy (s : AppState) (h : s.isGenerating = true) :
    (updateUIState s).status = s.status := by
  unfold updateUIState; simp only; repeat' split; all_goals simp_all

/-- Claim C7: in the image path with an attachment, a failure of the
auxiliary describe-and-enrich request that is not classified general-quota
is swallowed — the image-generation request is still issued, carrying the
user's original prompt — while a general-quota failure is rethrown and no
image-generation request is issued. -/
theorem image_aux_failure_handling (env : Env) (s : AppState) (img : UploadedImage)
    (e : ErrorPayload)
    (hupload : s.uploadedImage = some img)
    (herr : env.describeResult = .err e) :
    (¬ analyzeApiError e = .GENERAL_QUOTA →
      (generateImage env s).2 =
        [Request.generateContent (analysisInstruction s.promptValue) (some img),
          Request.generateImages s.promptValue imageGenConfig] ∧
      ∀ d, env.generateImagesResult = .ok d →
        ∃ sDone, (generateImage env s).1 = Except.ok sDone) ∧
    (analyzeApiError e = .GENERAL_QUOTA →
      (generateImage env s).1 =
        Except.error (e, setStatus "Analyzing image for inspiration..." s) ∧
      (generateImage env s).2 =
        [Request.generateContent (analysisInstruction s.promptValue) (some img)]) := by
  unfold generateImage
  rw [hupload]
  dsimp only
  rw [herr]
  dsimp only
  constructor
  · intro hne
    rw [if_neg hne]
    unfold generateImagesStep
    dsimp only
    constructor
    · cases hres : env.generateImagesResult <;> dsimp only <;> rfl
    · intro d hd
      rw [hd]
      dsimp only
      exact ⟨_, rfl⟩
  · intro hq
    rw [if_pos hq]
    exact ⟨rfl, rfl⟩

/-- Non-quota payload for the C7 witness. -/
def auxOtherPayload : ErrorPayload := { stringified := "boom", code := none }

/-- Quota payload for the C7 witness. -/
def auxQuotaPayload : ErrorPayload := { stringified := "quota", code := none }

/-- Environment whose describe-and-enrich request fails with a non-quota
error. -/
def auxOtherEnv : Env := { envW with describeResult := .err auxOtherPayload }

/-- Environment whose describe-and-enrich request fails with a quota
error. -/
def auxQuotaEnv : Env := { envW with describeResult := .err auxQuotaPayload }

/-- `baseState` with an attachment present. -/
def uploadState : AppState :=
  { baseState with uploadedImage := some { data := "IMG", mimeType := "image/png" } }

/-- Witness for C7 at concrete inputs, exercising both the fallback and the
propagation branches. -/
theorem image_aux_failure_handling_witness :
    (uploadState.uploadedImage = some { data := "IMG", mimeType := "image/png" } ∧
      auxOtherEnv.describeResult = ApiResult.err auxOtherPayload ∧
      auxQuotaEnv.describeResult = ApiResult.err auxQuotaPayload ∧
      ¬ analyzeApiError auxOtherPayload = ErrorType.GENERAL_QUOTA ∧
      analyzeApiError auxQuotaPayload = ErrorType.GENERAL_QUOTA) ∧
    ((generateImage auxOtherEnv uploadState).2 =
        [Request.generateContent (analysisInstruction uploadState.promptValue)
            (some { data := "IMG", mimeType := "image/png" }),
          Request.generateImages uploadState.promptValue imageGenConfig] ∧
      (generateImage auxQuotaEnv uploadState).1 =
        Except.error (auxQuotaPayload, setStatus "Analyzing image for inspiration..." uploadState) ∧
      (generateImage auxQuotaEnv uploadState).2 =
        [Request.generateContent (analysisInstruction uploadState.promptValue)
            (some { data := "IMG", mimeType := "image/png" })]) :=
  ⟨⟨rfl, rfl, rfl, by decide, by decide⟩,
    ⟨((image_aux_failure_handling auxOtherEnv uploadState
          { data := "IMG", mimeType := "image/png" } auxOtherPayload rfl rfl).1 (by decide)).1,
      ((image_aux_failure_handling auxQuotaEnv uploadState
          { data := "IMG", mimeType := "image/png" } auxQuotaPayload rfl rfl).2 (by decide)).1,
      ((image_aux_failure_handling auxQuotaEnv uploadState
          { data := "IMG", mimeType := "image/png" } auxQuotaPayload rfl rfl).2 (by decide)).2⟩⟩

/-- Claim C8: with a validated client, non-empty prompt, image mode and no
attachment, a click issues exactly one request — an image generation
carrying the literal prompt and the fixed config (one image, JPEG, 16:9) —
and on success appends exactly one history entry, of image kind, under that
same prompt, at the front of the history, after which the busy flag is
false. -/
theorem image_happy_path (env : Env) (s : AppState) (d : String)
    (hbusy : s.isGenerating = false)
    (hprompt : ((jsTrim s.promptValue).length == 0) = false)
    (hai : s.aiInitialized = true)
    (hmode : s.videoMode = false)
    (hupload : s.uploadedImage = none)
    (hres : env.generateImagesResult = .ok d) :
    (handleGenerateClick env s).2 = [Request.generateImages s.promptValue imageGenConfig] ∧
    (handleGenerateClick env s).1.history =
      mkHistoryItem .image ("data:image/jpeg;base64," ++ d) s.promptValue env.now ::
        (if 20 ≤ s.history.length then s.history.dropLast else s.history) ∧
    (handleGenerateClick env s).1.isGenerating = false := by
  unfold handleGenerateClick
  rw [hbusy, hprompt, hai]
  simp only [Bool.false_or, Bool.not_true, Bool.or_false, Bool.false_eq_true, if_false,
    generateImage, generateImagesStep, setStatus, updateUIState_videoMode,
    updateUIState_uploadedImage, updateUIState_promptValue, updateUIState_history,
    hmode, hupload, hres]
  refine ⟨?_, ?_, ?_⟩
  · simp
  · simp only [resetUI_history]
    rw [addToHistory_eq]
  · exact (resetUI_idle _).1

/-- Witness for C8 at concrete inputs. -/
theorem image_happy_path_witness :
    (baseState.isGenerating = false ∧ baseState.videoMode = false ∧
      baseState.uploadedImage = none ∧
      envW.generateImagesResult = ApiResult.ok "IMGBYTES") ∧
    ((handleGenerateClick envW baseState).2 =
        [Request.generateImages baseState.promptValue imageGenConfig] ∧
      (handleGenerateClick envW baseState).1.history =
        mkHistoryItem MediaType.image ("data:image/jpeg;base64," ++ "IMGBYTES")
            baseState.promptValue envW.now ::
          (if 20 ≤ baseState.history.length then baseState.history.dropLast
            else baseState.history) ∧
      (handleGenerateClick envW baseState).1.isGenerating = false) :=
  ⟨⟨rfl, rfl, rfl, rfl⟩,
    image_happy_path envW baseState "IMGBYTES" rfl (by decide) rfl rfl rfl rfl⟩

/-- Claim C9: key validation is all-or-nothing. A successful probe adopts the
candidate key as active, persists it, clears the status and hides the key
modal with the app enabled; a failed probe discards the candidate (not
adopted as the active client, removed from memory and persistence), surfaces
the invalid-key/insufficient-quota status, clears the input and re-shows the
key modal. -/
theorem key_validation_all_or_nothing (envo enve : Env) (u : Unit) (e : ErrorPayload)
    (key : String) (s1 s2 : AppState)
    (ho : envo.probeResult = .ok u)
    (he : enve.probeResult = .err e) :
    ((initializeAppWithKey envo key s1).aiInitialized = true ∧
      (initializeAppWithKey envo key s1).apiKey = some key ∧
      (initializeAppWithKey envo key s1).storedApiKey = some key ∧
      (initializeAppWithKey envo key s1).isGenerating = false ∧
      (initializeAppWithKey envo key s1).status = "" ∧
      (initializeAppWithKey envo key s1).apiKeyModalVisible = false) ∧
    ((initializeAppWithKey enve key s2).apiKey = none ∧
      (initializeAppWithKey enve key s2).storedApiKey = none ∧
      (initializeAppWithKey enve key s2).aiInitialized = s2.aiInitialized ∧
      (initializeAppWithKey enve key s2).status =
        "API Key is invalid or has insufficient quota. Please try again." ∧
      (initializeAppWithKey enve key s2).apiKeyInputValue = "" ∧
      (initializeAppWithKey enve key s2).apiKeyModalVisible = true) := by
  constructor
  · unfold initializeAppWithKey handleModeChange
    rw [ho]
    dsimp only
    simp only [setStatus, updateUIState_aiInitialized, updateUIState_apiKey,
      updateUIState_storedApiKey, updateUIState_isGenerating, updateUIState_apiKeyModalVisible]
    exact ⟨trivial, trivial, trivial, trivial, trivial, trivial⟩
  · unfold initializeAppWithKey
    rw [he]
    dsimp only
    refine ⟨rfl, rfl, ?_, ?_, rfl, rfl⟩
    · simp only [setStatus, updateUIState_aiInitialized]
    · simp only [setStatus, updateUIState_status_busy]

/-- Environment whose key-validation probe fails, for the C9 witness. -/
def probeFailEnv : Env :=
  { envW with probeResult := .err { stringified := "bad key", code := none } }

/-- Witness for C9 at concrete inputs, exercising both probe outcomes. -/
theorem key_validation_all_or_nothing_witness :
    (envW.probeResult = ApiResult.ok () ∧
      probeFailEnv.probeResult = ApiResult.err { stringified := "bad key", code := none }) ∧
    (((initializeAppWithKey envW "key1" baseState).aiInitialized = true ∧
        (initializeAppWithKey envW "key1" baseState).apiKey = some "key1" ∧
        (initializeAppWithKey envW "key1" baseState).storedApiKey = some "key1" ∧
        (initializeAppWithKey envW "key1" baseState).isGenerating = false ∧
        (initializeAppWithKey envW "key1" baseState).status = "" ∧
        (initializeAppWithKey envW "key1" baseState).apiKeyModalVisible = false) ∧
      ((initializeAppWithKey probeFailEnv "key1" baseState).apiKey = none ∧
        (initializeAppWithKey probeFailEnv "key1" baseState).storedApiKey = none ∧
        (initializeAppWithKey probeFailEnv "key1" baseState).aiInitialized =
          baseState.aiInitialized ∧
        (initializeAppWithKey probeFailEnv "key1" baseState).status =
          "API Key is invalid or has insufficient quota. Please try again." ∧
        (initializeAppWithKey probeFailEnv "key1" baseState).apiKeyInputValue = "" ∧
        (initializeAppWithKey probeFailEnv "key1" baseState).apiKeyModalVisible = true)) :=
  ⟨⟨rfl, rfl⟩,
    key_validation_all_or_nothing envW probeFailEnv ()
      { stringified := "bad key", code := none } "key1" baseState baseState rfl rfl⟩

end Veo
